import Mathlib

/-!
Verification of the duplicate-avoidance broadcast scheduler of the
Courses-File-Store-share-Bot repository (`plugins/facts.py`, `plugins/quiz.py`).

The Python modules are shallowly embedded as pure Lean functions:

* byte strings are `List Nat` (each entry < 256), `str.encode()` is UTF-8;
* `hashlib.sha256(...).hexdigest()` is implemented executably over `Nat`
  words with explicit reduction modulo 2^32;
* the durable JSON history file is modelled at the value level:
  `Option (Except Unit (List String))` — `none` is a missing file
  (`FileNotFoundError` on open), `some (.error ())` is a present file whose
  content does not parse as JSON (`json.JSONDecodeError` from `json.loads`),
  `some (.ok ids)` is a file holding a JSON array of strings (the only shape
  the writer ever produces); the JSON codec itself is Python stdlib,
  outside this repository;
* network fetches are parameters (`Nat → ...`) indexed by the call number,
  and fallible calls return `Except Unit` values;
* wall-clock time is seconds: seconds-of-day for the per-day trigger lists
  (the Python code builds `datetime` values on the current date), absolute
  seconds since an epoch for the scheduler loop.
-/

namespace FileShareBot

/-! ### Python whitespace handling

Whitespace collapse (regex substitution of runs of whitespace by one space)
followed by strip, as used in `fetch_trivia_question` (facts.py, trivia
section): the ASCII whitespace set of the Python regex class backslash-s. -/

/-- The ASCII characters matched by the Python regex whitespace class (and
removed by the Python string strip method). -/
def isPySpace (c : Char) : Bool :=
  c = ' ' || c = '\t' || c = '\n' || c = '\r' || c = '\x0b' || c = '\x0c'

/-- Implements the whitespace-collapsing regex substitution on a character
list: every maximal run of whitespace becomes a single space.  The boolean
accumulator records whether the previous character belonged to a whitespace
run. -/
def collapseWsAux : Bool → List Char → List Char
  | _, [] => []
  | prevSpace, c :: rest =>
    if isPySpace c then
      if prevSpace then collapseWsAux true rest
      else ' ' :: collapseWsAux true rest
    else c :: collapseWsAux false rest

/-- Implements the Python string strip method on a character list (ASCII
whitespace). -/
def pyStrip (l : List Char) : List Char :=
  ((l.dropWhile isPySpace).reverse.dropWhile isPySpace).reverse

/-- Models `clean_question` (facts.py line 274): collapse whitespace runs in
the decoded question text to single spaces, then strip. -/
def clean_question (s : String) : String :=
  String.mk (pyStrip (collapseWsAux false s.data))

/-! ### UTF-8 bytes (the Python string encode method) -/

/-- UTF-8 encoding of a single code point, as a list of byte values. -/
def utf8Char (c : Char) : List Nat :=
  let n := c.toNat
  if n < 128 then [n]
  else if n < 2048 then [192 + n / 64, 128 + n % 64]
  else if n < 65536 then [224 + n / 4096, 128 + n / 64 % 64, 128 + n % 64]
  else [240 + n / 262144, 128 + n / 4096 % 64, 128 + n / 64 % 64, 128 + n % 64]

/-- Computes the UTF-8 bytes of a string (the Python encode method with the
default encoding). -/
def utf8Encode (s : String) : List Nat :=
  (s.data.map utf8Char).flatten

/-! ### SHA-256 (FIPS 180-4), executable over `Nat`

Implements `hashlib.sha256(bytes).hexdigest()`.  All word arithmetic is `Nat`
with explicit reduction modulo `2^32`. -/

/-- Reduce to a 32-bit word. -/
def w32 (n : Nat) : Nat := n % 4294967296

/-- Right rotation of a 32-bit word by `n` bits. -/
def rotr (n x : Nat) : Nat := w32 ((x >>> n) ||| (x <<< (32 - n)))

/-- SHA-256 `Ch(e,f,g)`; complement is xor with the 32-bit mask. -/
def shaCh (e f g : Nat) : Nat := (e &&& f) ^^^ ((e ^^^ 4294967295) &&& g)

/-- SHA-256 `Maj(a,b,c)`. -/
def shaMaj (a b c : Nat) : Nat := (a &&& b) ^^^ (a &&& c) ^^^ (b &&& c)

/-- SHA-256 `Σ0`. -/
def bigSigma0 (x : Nat) : Nat := rotr 2 x ^^^ rotr 13 x ^^^ rotr 22 x

/-- SHA-256 `Σ1`. -/
def bigSigma1 (x : Nat) : Nat := rotr 6 x ^^^ rotr 11 x ^^^ rotr 25 x

/-- SHA-256 `σ0`. -/
def smallSigma0 (x : Nat) : Nat := rotr 7 x ^^^ rotr 18 x ^^^ (x >>> 3)

/-- SHA-256 `σ1`. -/
def smallSigma1 (x : Nat) : Nat := rotr 17 x ^^^ rotr 19 x ^^^ (x >>> 10)

/-- The 64 SHA-256 round constants (decimal). -/
def shaK : List Nat :=
  [1116352408, 1899447441, 3049323471, 3921009573,
   961987163, 1508970993, 2453635748, 2870763221,
   3624381080, 310598401, 607225278, 1426881987,
   1925078388, 2162078206, 2614888103, 3248222580,
   3835390401, 4022224774, 264347078, 604807628,
   770255983, 1249150122, 1555081692, 1996064986,
   2554220882, 2821834349, 2952996808, 3210313671,
   3336571891, 3584528711, 113926993, 338241895,
   666307205, 773529912, 1294757372, 1396182291,
   1695183700, 1986661051, 2177026350, 2456956037,
   2730485921, 2820302411, 3259730800, 3345764771,
   3516065817, 3600352804, 4094571909, 275423344,
   430227734, 506948616, 659060556, 883997877,
   958139571, 1322822218, 1537002063, 1747873779,
   1955562222, 2024104815, 2227730452, 2361852424,
   2428436474, 2756734187, 3204031479, 3329325298]

/-- Working state of the compression function. -/
structure ShaState where
  a : Nat
  b : Nat
  c : Nat
  d : Nat
  e : Nat
  f : Nat
  g : Nat
  h : Nat
deriving Repr, DecidableEq

/-- SHA-256 initial hash value (decimal). -/
def shaInit : ShaState :=
  ⟨1779033703, 3144134277, 1013904242, 2773480762,
   1359893119, 2600822924, 528734635, 1541459225⟩

/-- One compression round with round constant `k` and schedule word `w`. -/
def shaRound (k w : Nat) (s : ShaState) : ShaState :=
  let t1 := s.h + bigSigma1 s.e + shaCh s.e s.f s.g + k + w
  let t2 := bigSigma0 s.a + shaMaj s.a s.b s.c
  ⟨w32 (t1 + t2), s.a, s.b, s.c, w32 (s.d + t1), s.e, s.f, s.g⟩

/-- Runs the rounds over paired constant/schedule lists. -/
def shaRounds : List Nat → List Nat → ShaState → ShaState
  | k :: ks, w :: ws, s => shaRounds ks ws (shaRound k w s)
  | _, _, s => s

/-- Big-endian 32-bit words from a byte list (length a multiple of 4). -/
def toWords : List Nat → List Nat
  | b0 :: b1 :: b2 :: b3 :: rest =>
      (b0 * 16777216 + b1 * 65536 + b2 * 256 + b3) :: toWords rest
  | _ => []

/-- Appends the next message-schedule word. -/
def scheduleStep (ws : List Nat) : List Nat :=
  let n := ws.length
  ws ++ [w32 (smallSigma1 (ws.getD (n - 2) 0) + ws.getD (n - 7) 0 +
              smallSigma0 (ws.getD (n - 15) 0) + ws.getD (n - 16) 0)]

/-- Simple function iteration. -/
def iterN {α : Type} (f : α → α) : Nat → α → α
  | 0, a => a
  | n + 1, a => iterN f n (f a)

/-- The 64-word message schedule of one block. -/
def fullSchedule (ws : List Nat) : List Nat := iterN scheduleStep 48 ws

/-- Feed-forward after compressing one block. -/
def shaAdd (s t : ShaState) : ShaState :=
  ⟨w32 (s.a + t.a), w32 (s.b + t.b), w32 (s.c + t.c), w32 (s.d + t.d),
   w32 (s.e + t.e), w32 (s.f + t.f), w32 (s.g + t.g), w32 (s.h + t.h)⟩

/-- Processes one 64-byte block. -/
def processBlock (s : ShaState) (block : List Nat) : ShaState :=
  shaAdd s (shaRounds shaK (fullSchedule (toWords block)) s)

/-- Big-endian 8-byte encoding of `n` (the message bit length). -/
def be64 (n : Nat) : List Nat :=
  [n >>> 56 % 256, n >>> 48 % 256, n >>> 40 % 256, n >>> 32 % 256,
   n >>> 24 % 256, n >>> 16 % 256, n >>> 8 % 256, n % 256]

/-- SHA-256 padding: a `0x80` byte, zeros to 56 mod 64, then the bit length. -/
def shaPad (msg : List Nat) : List Nat :=
  msg ++ [128] ++ List.replicate ((64 - (msg.length + 9) % 64) % 64) 0 ++
    be64 (8 * msg.length)

/-- Splits a byte list into 64-byte blocks.  The fuel argument (instantiated
with the list length, which strictly exceeds the number of blocks) makes the
recursion structural so that the kernel can evaluate it. -/
def toBlocksAux : Nat → List Nat → List (List Nat)
  | 0, _ => []
  | _, [] => []
  | fuel + 1, l => l.take 64 :: toBlocksAux fuel (l.drop 64)

/-- Splits a byte list into 64-byte blocks. -/
def toBlocks (l : List Nat) : List (List Nat) :=
  toBlocksAux l.length l

/-- The eight-word SHA-256 digest of a byte list. -/
def sha256Digest (msg : List Nat) : ShaState :=
  (toBlocks (shaPad msg)).foldl processBlock shaInit

/-- Lowercase hex digit. -/
def hexDigit (n : Nat) : Char :=
  if n < 10 then Char.ofNat (48 + n) else Char.ofNat (87 + n)

/-- Eight lowercase hex characters of a 32-bit word, most significant first. -/
def wordHex (x : Nat) : List Char :=
  [hexDigit (x >>> 28 &&& 15), hexDigit (x >>> 24 &&& 15),
   hexDigit (x >>> 20 &&& 15), hexDigit (x >>> 16 &&& 15),
   hexDigit (x >>> 12 &&& 15), hexDigit (x >>> 8 &&& 15),
   hexDigit (x >>> 4 &&& 15), hexDigit (x &&& 15)]

/-- Implements the hex digest of SHA-256: 64 lowercase hex characters. -/
def sha256Hex (msg : List Nat) : String :=
  let d := sha256Digest msg
  String.mk (([d.a, d.b, d.c, d.d, d.e, d.f, d.g, d.h].map wordHex).flatten)

/-- Models `generate_question_id` (facts.py line 214, quiz.py line 61):
SHA-256 hex digest of the UTF-8 encoding of the text. -/
def generate_question_id (question_text : String) : String :=
  sha256Hex (utf8Encode question_text)

/-! ### History store (facts.py lines 36–51, quiz.py lines 42–59)

The durable file is modelled at the JSON-value level, see the header. -/

/-- Bound `MAX_STORED_FACTS = 200` (facts.py line 37). -/
def MAX_STORED_FACTS : Nat := 200

/-- Bound `MAX_STORED_QUESTIONS = 300` (quiz.py line 43, facts.py line 199). -/
def MAX_STORED_QUESTIONS : Nat := 300

/-- Models the Python negative slice taking the last `n` entries of a list
(for `n > 0`): the last `min n (length l)` elements. -/
def pyLastN (n : Nat) (l : List String) : List String :=
  l.drop (l.length - n)

/-- The durable history record: absent file, present-but-unparseable content,
or a JSON array of strings. -/
def HistoryFile : Type := Option (Except Unit (List String))

/-- Models `load_sent_facts` (facts.py lines 39–46): returns the parsed
array; a missing file (FileNotFoundError) and unparseable content
(JSONDecodeError) are caught and give `[]`. -/
def load_sent_facts (file : HistoryFile) : List String :=
  match file with
  | none => []
  | some (.error _) => []
  | some (.ok ids) => ids

/-- Models `save_sent_facts` (facts.py lines 48–51): writes the JSON dump of
the last `MAX_STORED_FACTS` ids. -/
def save_sent_facts (fact_ids : List String) : HistoryFile :=
  some (.ok (pyLastN MAX_STORED_FACTS fact_ids))

/-- Models `load_sent_trivia` (quiz.py lines 47–54, facts.py lines 201–207):
same shape as `load_sent_facts`. -/
def load_sent_trivia (file : HistoryFile) : List String :=
  match file with
  | none => []
  | some (.error _) => []
  | some (.ok ids) => ids

/-- Models `save_sent_trivia` (quiz.py lines 56–59, facts.py lines 209–212):
writes the JSON dump of the last `MAX_STORED_QUESTIONS` ids. -/
def save_sent_trivia (question_ids : List String) : HistoryFile :=
  some (.ok (pyLastN MAX_STORED_QUESTIONS question_ids))

/-! ### Content fetchers -/

/-- The fields of the facts API response that identifier derivation reads:
the fact text and the optional source-provided natural id (facts.py lines
65–68). -/
structure FactApiData where
  text : String
  natId : Option String
deriving Repr, DecidableEq

/-- Models `fetch_daily_fact` (facts.py lines 53–86), returning the pair of
formatted fact and fact id.  `resp` is the outcome of the HTTP call and JSON
decoding (external collaborators); `now_ts` models the current-time string
of line 68, used both as the missing-natural-id fallback (the fact id is the
natural id when the response has one and otherwise the timestamp string)
and, after the fallback marker, in the total-failure fallback id. -/
def fetch_daily_fact (resp : Except Unit FactApiData) (now_ts : String) :
    String × String :=
  match resp with
  | .ok fact_data =>
      let fact_text := "✦ " ++ String.mk (pyStrip fact_data.text.data)
      ("🧠 **Daily Knowledge Boost**\n\n" ++ fact_text ++
         "\n\n━━━━━━━━━━━━━━━━━━━\nStay Curious! @Excellerators",
       fact_data.natId.getD now_ts)
  | .error _ =>
      ("💡 **Did You Know?**\n\n" ++
         "✦ Honey never spoils and can last for thousands of years!\n\n" ++
         "━━━━━━━━━━━━━━━━━━━\nLearn more @Excellerators",
       "fallback_" ++ now_ts)

/-- The identifier component of `fetch_trivia_question` (facts.py lines
218–291): on success the id is `generate_question_id` applied to
`clean_question`, the whitespace-normalized decoded question text (lines
274, 281); on any failure it is the fallback marker followed by the current
timestamp (line 290).  `resp` carries the decoded question text of a
successful call; `now_ts` models the timestamp string. -/
def fetch_trivia_question_id (resp : Except Unit String) (now_ts : String) :
    String :=
  match resp with
  | .ok question => generate_question_id (clean_question question)
  | .error _ => "fallback_" ++ now_ts

/-! ### Deduplicating retrieval (facts.py lines 109–116, 307–315)

`fetch` is the fetch sequence, indexed by call number; call 0 is the initial
fetch, calls `1..budget` are the re-fetches of the `while` loop
(`while fact_id in sent_ids and retry < 5`).  The fuel argument counts the
remaining retries (`budget - retry`). -/

/-- The `while fact_id in sent_ids and retry < budget` re-fetch loop, with
`cur` the current `(payload, id)` candidate and `idx` the next call number. -/
def retryUniqueAux {α : Type} (sent_ids : List String)
    (fetch : Nat → α × String) : α × String → Nat → Nat → α × String
  | cur, _, 0 => cur
  | cur, idx, fuel + 1 =>
      if cur.2 ∈ sent_ids then
        retryUniqueAux sent_ids fetch (fetch idx) (idx + 1) fuel
      else cur

/-- Deduplicating retrieval: initial fetch, then up to `retry_budget`
re-fetches while the candidate id is in the loaded history; the final
candidate is accepted regardless.  The source hardwires `retry_budget = 5`
for the single-item variants. -/
def retrieve_unique {α : Type} (sent_ids : List String)
    (fetch : Nat → α × String) (retry_budget : Nat) : α × String :=
  retryUniqueAux sent_ids fetch (fetch 0) 1 retry_budget

/-- The dispatch-and-record phase of one `send_scheduled_facts` cycle body
(facts.py lines 109–124): retrieve with budget 5, send the final candidate
unconditionally to the facts channel, append its id to the loaded history.
Returns (dispatched items, history after append). -/
def facts_cycle {α : Type} (sent_ids : List String)
    (fetch : Nat → α × String) : List (α × String) × List String :=
  let fm := retrieve_unique sent_ids fetch 5
  ([fm], sent_ids ++ [fm.2])

/-! ### Schedule computation (facts.py lines 93–102, 304; quiz.py lines
203–210)

Times are seconds; `now` is reduced modulo one day to a time of day, matching
how the Python code builds the trigger datetimes of the current date by
replacing the hour field of the current time and zeroing minutes, seconds
and microseconds. -/

/-- Seconds per day. -/
def SECONDS_PER_DAY : Nat := 86400

/-- The facts trigger times 08:00, 12:00, 16:00, 20:00 IST in
seconds-of-day (facts.py lines 94–99). -/
def facts_target_times : List Nat := [28800, 43200, 57600, 72000]

/-- The trivia trigger times 09:00, 13:00, 17:00, 21:00 IST in
seconds-of-day (quiz.py lines 204–207, facts.py lines 299–302). -/
def trivia_target_times : List Nat := [32400, 46800, 61200, 75600]

/-- Models the next-time computation: the minimum of the targets strictly
after `now` (a time of day), else the first list entry plus one day. -/
def next_trigger (target_times : List Nat) (now : Nat) : Nat :=
  match (target_times.filter (fun t => now < t)).min? with
  | some m => m
  | none => target_times.headD 0 + SECONDS_PER_DAY

/-- The next trigger as an absolute time, recomputed from the wall clock:
`now` in absolute seconds, targets placed on the current day. -/
def next_trigger_abs (target_times : List Nat) (now : Nat) : Nat :=
  now / SECONDS_PER_DAY * SECONDS_PER_DAY +
    next_trigger target_times (now % SECONDS_PER_DAY)

/-- Runs `n` iterations of the two scheduler loops of facts.py: the facts
scheduler (lines 92–132) and the single-trivia scheduler (lines 297–336).
Each iteration recomputes the wake time from the current wall clock, sleeps
until it, then runs the cycle body inside the try block whose except arm
catches every exception; `outcomes k` tells whether the body of cycle `k`
succeeded (`true`) or raised an exception that was caught (`false`).  In
both of these loops the except arm only calls a logger (facts.py lines
131–132 and 335–336), which cannot raise, so the loop recurses either way.
The body is modelled as instantaneous, so the wall clock of the next
iteration is the wake time.  Returns the list of (wake time, body outcome)
pairs. -/
def scheduled_loop (target_times : List Nat) (outcomes : Nat → Bool) :
    Nat → Nat → Nat → List (Nat × Bool)
  | 0, _, _ => []
  | n + 1, k, now =>
      let wake := next_trigger_abs target_times now
      (wake, outcomes k) :: scheduled_loop target_times outcomes n (k + 1) wake

/-- Runs up to `n` iterations of the batch-trivia scheduler loop of quiz.py
(lines 202–246).  The wake-time computation and the caught cycle-body
exception are as in `scheduled_loop`, but the except arm of this loop
(lines 241–246), after logging, itself awaits a send of the error report to
the log channel; `log_send_ok k` tells whether that send succeeded for a
failed cycle `k`.  When it does not, the exception it raises is not caught
by anything, escapes the while-loop, and terminates the scheduler task: no
further iteration runs.  Returns the list of (wake time, body outcome)
pairs of the cycles that fired, paired with `true` when the loop is still
alive after them and `false` when it was terminated. -/
def scheduled_loop_quiz (target_times : List Nat)
    (outcomes log_send_ok : Nat → Bool) :
    Nat → Nat → Nat → List (Nat × Bool) × Bool
  | 0, _, _ => ([], true)
  | n + 1, k, now =>
      let wake := next_trigger_abs target_times now
      if outcomes k then
        let r := scheduled_loop_quiz target_times outcomes log_send_ok n
          (k + 1) wake
        ((wake, true) :: r.1, r.2)
      else if log_send_ok k then
        let r := scheduled_loop_quiz target_times outcomes log_send_ok n
          (k + 1) wake
        ((wake, false) :: r.1, r.2)
      else
        ([(wake, false)], false)

/-! ### Batch processing (quiz.py lines 170–198)

`process_questions(bot, questions, sent_ids)`: for each fetched question, a
retry loop replaces it while its id is in `sent_ids` (at most 3 times), then
the question is sent only if its final id is not in `sent_ids`, and only then
is the id recorded in `new_ids`.

The replacement fetch is the expression `fetch_trivia_questions(1)` (line
182).  `fetch_trivia_questions` takes no parameters (line 65), so this call
raises `TypeError`, which the surrounding `except Exception` catches,
breaking the loop; the embedding keeps the replacement fetch as a parameter
`refetch` (call-indexed, `.error` = the call raised) so the loop structure is
preserved — the behaviour of the code as written is `refetch = fun _ =>
.error ()`.  A successful `fetch_trivia_questions` never returns an empty
list (an empty `results` array raises inside it, and the failure path returns
four fallback items), so the `if new_questions:` guard is taken on every
successful call and `refetch` returns the head `new_questions[0]`. -/

/-- The identifier-relevant fields of one `question_data` tuple:
the question text and the qid (tuple slots 0 and 5). -/
structure BatchQuestion where
  question : String
  qid : String
deriving Repr, DecidableEq

/-- The per-item replacement loop `while qid in sent_ids and retry < 3`
(quiz.py lines 179–189).  `idx` is the next `refetch` call number; returns
the final candidate and the next call number. -/
def processRetry (sent_ids : List String)
    (refetch : Nat → Except Unit BatchQuestion) :
    BatchQuestion → Nat → Nat → BatchQuestion × Nat
  | q, idx, 0 => (q, idx)
  | q, idx, fuel + 1 =>
      if q.qid ∈ sent_ids then
        match refetch idx with
        | .error _ => (q, idx + 1)
        | .ok q2 => processRetry sent_ids refetch q2 (idx + 1) fuel
      else (q, idx)

/-- The body of `process_questions` (quiz.py lines 170–198) over the list of
fetched questions.  `send_ok i` tells whether the `i`-th `send_quiz_poll`
call returned a poll (`send_quiz_poll` returns `None` when sending raised);
`fridx` threads the `refetch` call counter.  Returns `(new_ids, sent_polls)`
(the dispatched question payloads stand in for the poll objects). -/
def processQuestionsAux (sent_ids : List String)
    (refetch : Nat → Except Unit BatchQuestion) (send_ok : Nat → Bool) :
    List BatchQuestion → Nat → Nat → List String × List BatchQuestion
  | [], _, _ => ([], [])
  | q :: rest, fridx, sidx =>
      let r := processRetry sent_ids refetch q fridx 3
      if r.1.qid ∈ sent_ids then
        processQuestionsAux sent_ids refetch send_ok rest r.2 sidx
      else if send_ok sidx then
        let t := processQuestionsAux sent_ids refetch send_ok rest r.2 (sidx + 1)
        (r.1.qid :: t.1, r.1 :: t.2)
      else
        processQuestionsAux sent_ids refetch send_ok rest r.2 (sidx + 1)

/-- Models `process_questions` (quiz.py lines 170–198). -/
def process_questions (sent_ids : List String)
    (refetch : Nat → Except Unit BatchQuestion) (send_ok : Nat → Bool)
    (questions : List BatchQuestion) : List String × List BatchQuestion :=
  processQuestionsAux sent_ids refetch send_ok questions 0 0

/-! ### Helper lemmas -/

/-- A candidate not in the history ends the re-fetch loop at once. -/
theorem retryUniqueAux_not_mem {α : Type} (sent_ids : List String)
    (fetch : Nat → α × String) (cur : α × String) (idx fuel : Nat)
    (hc : cur.2 ∉ sent_ids) :
    retryUniqueAux sent_ids fetch cur idx fuel = cur := by
  cases fuel <;> simp [retryUniqueAux, hc]

/-- A candidate in the history is replaced by the next fetch. -/
theorem retryUniqueAux_succ_mem {α : Type} (sent_ids : List String)
    (fetch : Nat → α × String) (cur : α × String) (idx fuel : Nat)
    (hc : cur.2 ∈ sent_ids) :
    retryUniqueAux sent_ids fetch cur idx (fuel + 1) =
      retryUniqueAux sent_ids fetch (fetch idx) (idx + 1) fuel := by
  simp [retryUniqueAux, hc]

/-- If the current candidate is fresh, or some upcoming fetch within the fuel
window is fresh, the result of the loop is fresh. -/
theorem retryUniqueAux_fresh {α : Type} (sent_ids : List String)
    (fetch : Nat → α × String) :
    ∀ (fuel : Nat) (cur : α × String) (idx : Nat),
      (cur.2 ∉ sent_ids ∨ ∃ j, idx ≤ j ∧ j < idx + fuel ∧ (fetch j).2 ∉ sent_ids) →
      (retryUniqueAux sent_ids fetch cur idx fuel).2 ∉ sent_ids := by
  intro fuel
  induction fuel with
  | zero =>
    intro cur idx h
    rcases h with h | ⟨j, hj1, hj2, _⟩
    · simpa [retryUniqueAux] using h
    · omega
  | succ f ih =>
    intro cur idx h
    by_cases hc : cur.2 ∈ sent_ids
    · rw [retryUniqueAux_succ_mem sent_ids fetch cur idx f hc]
      apply ih
      rcases h with h | ⟨j, hj1, hj2, hj3⟩
      · exact absurd hc h
      · by_cases hj : j = idx
        · left
          rw [← hj]
          exact hj3
        · right
          exact ⟨j, by omega, by omega, hj3⟩
    · rw [retryUniqueAux_not_mem sent_ids fetch cur idx (f + 1) hc]
      exact hc

/-- A batch item whose id is not in the history passes the replacement loop
unchanged. -/
theorem processRetry_not_mem (sent_ids : List String)
    (refetch : Nat → Except Unit BatchQuestion) (q : BatchQuestion)
    (idx fuel : Nat) (hq : q.qid ∉ sent_ids) :
    processRetry sent_ids refetch q idx fuel = (q, idx) := by
  cases fuel <;> simp [processRetry, hq]

/-- Characterization of `next_trigger` when some target is still ahead:
it is a target, strictly after `now`, and minimal among those. -/
theorem next_trigger_spec (target_times : List Nat) (now : Nat)
    (h : ∃ t ∈ target_times, now < t) :
    next_trigger target_times now ∈ target_times ∧
    now < next_trigger target_times now ∧
    ∀ u ∈ target_times, now < u → next_trigger target_times now ≤ u := by
  obtain ⟨t, ht, hnt⟩ := h
  have htf : t ∈ target_times.filter (fun t => decide (now < t)) :=
    List.mem_filter.mpr ⟨ht, by simpa using hnt⟩
  cases hm : (target_times.filter (fun t => decide (now < t))).min? with
  | none =>
    rw [List.min?_eq_none_iff] at hm
    rw [hm] at htf
    simp at htf
  | some m =>
    have hmem := List.min?_mem (fun a b => by omega) hm
    have hle : ∀ b ∈ target_times.filter (fun t => decide (now < t)), m ≤ b := by
      have := (List.min?_eq_some_iff (fun a => le_refl a) (fun a b => by omega)
        (fun a b c => by omega)).mp hm
      exact this.2
    have hres : next_trigger target_times now = m := by
      simp only [next_trigger]
      rw [hm]
    rw [hres]
    refine ⟨(List.mem_filter.mp hmem).1, by simpa using (List.mem_filter.mp hmem).2, ?_⟩
    intro u hu hnu
    exact hle u (List.mem_filter.mpr ⟨hu, by simpa using hnu⟩)

/-- Value of `next_trigger` when no target is ahead: first target of the
next day. -/
theorem next_trigger_none (target_times : List Nat) (now : Nat)
    (h : ∀ t ∈ target_times, t ≤ now) :
    next_trigger target_times now = target_times.headD 0 + SECONDS_PER_DAY := by
  have hf : target_times.filter (fun t => decide (now < t)) = [] := by
    rw [List.filter_eq_nil_iff]
    intro a ha
    simpa using Nat.not_lt.mpr (h a ha)
  simp only [next_trigger]
  rw [hf]
  rfl

/-- The next trigger of a time of day is strictly later in the day, or on the
next day. -/
theorem next_trigger_gt (target_times : List Nat) (d : Nat)
    (hd : d < SECONDS_PER_DAY) : d < next_trigger target_times d := by
  by_cases h : ∃ t ∈ target_times, d < t
  · exact (next_trigger_spec target_times d h).2.1
  · push_neg at h
    rw [next_trigger_none target_times d h]
    simp only [SECONDS_PER_DAY] at *
    omega

/-- The absolute next trigger is strictly in the future. -/
theorem next_trigger_abs_gt (target_times : List Nat) (now : Nat) :
    now < next_trigger_abs target_times now := by
  have h := next_trigger_gt target_times (now % SECONDS_PER_DAY)
    (Nat.mod_lt _ (by simp [SECONDS_PER_DAY]))
  have hdm := Nat.div_add_mod now SECONDS_PER_DAY
  have hcomm : now / SECONDS_PER_DAY * SECONDS_PER_DAY =
      SECONDS_PER_DAY * (now / SECONDS_PER_DAY) := Nat.mul_comm _ _
  simp only [next_trigger_abs]
  omega

/-! ### Claim theorems -/

/-- C1: Deduplicating retrieval returns an item whose identifier is not in
the loaded history whenever some fetch within the retry budget (the initial
call 0 or a re-fetch `1..budget`) yields a fresh identifier; in particular,
for a loaded history `[A, B]` and a fetch sequence yielding `A, B, C, C, ...`
on successive calls, any retry budget ≥ 2 returns the item with
identifier `C`. -/
theorem retrieve_unique_returns_fresh {α : Type} (sent_ids : List String)
    (fetch : Nat → α × String) (retry_budget : Nat) :
    ((∃ i, i ≤ retry_budget ∧ (fetch i).2 ∉ sent_ids) →
      (retrieve_unique sent_ids fetch retry_budget).2 ∉ sent_ids) ∧
    (∀ (A B C : String) (pa pb pc : α), C ∉ [A, B] → 2 ≤ retry_budget →
      retrieve_unique [A, B]
        (fun i => if i = 0 then (pa, A) else if i = 1 then (pb, B) else (pc, C))
        retry_budget = (pc, C)) := by
  constructor
  · rintro ⟨i, hi, hfresh⟩
    apply retryUniqueAux_fresh
    rcases Nat.eq_zero_or_pos i with h0 | hpos
    · left
      rw [← h0]
      exact hfresh
    · right
      exact ⟨i, hpos, by omega, hfresh⟩
  · intro A B C pa pb pc hC hb
    obtain ⟨b, rfl⟩ : ∃ b, retry_budget = b + 2 := ⟨retry_budget - 2, by omega⟩
    have e0 : retrieve_unique [A, B]
        (fun i => if i = 0 then (pa, A) else if i = 1 then (pb, B) else (pc, C))
        (b + 2) =
        retryUniqueAux [A, B]
          (fun i => if i = 0 then (pa, A) else if i = 1 then (pb, B) else (pc, C))
          (pa, A) 1 (b + 2) := rfl
    rw [e0, retryUniqueAux_succ_mem _ _ _ _ _ (by simp)]
    norm_num
    rw [retryUniqueAux_succ_mem _ _ _ _ _ (by simp)]
    norm_num
    rw [retryUniqueAux_not_mem _ _ _ _ _ hC]

/-- Witness for C1 at history `["A","B"]`, fetch sequence `A, B, C, C, ...`,
budget 2. -/
theorem retrieve_unique_returns_fresh_witness :
    (retrieve_unique ["A", "B"]
        (fun i => if i = 0 then ((), "A") else if i = 1 then ((), "B")
          else ((), "C")) 2).2 ∉ ["A", "B"] ∧
    retrieve_unique ["A", "B"]
        (fun i => if i = 0 then ((), "A") else if i = 1 then ((), "B")
          else ((), "C")) 2 = ((), "C") :=
  ⟨(retrieve_unique_returns_fresh ["A", "B"]
      (fun i => if i = 0 then ((), "A") else if i = 1 then ((), "B")
        else ((), "C")) 2).1 ⟨2, by decide, by decide⟩,
   (retrieve_unique_returns_fresh ["A", "B"]
      (fun i => if i = 0 then ((), "A") else if i = 1 then ((), "B")
        else ((), "C")) 2).2 "A" "B" "C" () () () (by decide) (by decide)⟩

/-- C2: Retry-budget exhaustion is never a hard failure: when every fetch
call `0..5` (the initial attempt and the five re-fetch attempts of the
hardwired budget) yields an identifier already in the loaded history, the
retrieval returns the result of call 5 — the fifth and last re-fetch attempt
— as a total function (no exception path exists), and the cycle body still
dispatches that duplicate item and appends its identifier to the history. -/
theorem retrieve_unique_exhaustion_dispatches {α : Type} (sent_ids : List String)
    (fetch : Nat → α × String)
    (h : ∀ i, i ≤ 5 → (fetch i).2 ∈ sent_ids) :
    retrieve_unique sent_ids fetch 5 = fetch 5 ∧
    facts_cycle sent_ids fetch = ([fetch 5], sent_ids ++ [(fetch 5).2]) := by
  have e0 : retrieve_unique sent_ids fetch 5 =
      retryUniqueAux sent_ids fetch (fetch 0) 1 5 := rfl
  have e1 : retryUniqueAux sent_ids fetch (fetch 0) 1 5 =
      retryUniqueAux sent_ids fetch (fetch 1) 2 4 :=
    retryUniqueAux_succ_mem _ _ _ _ 4 (h 0 (by omega))
  have e2 : retryUniqueAux sent_ids fetch (fetch 1) 2 4 =
      retryUniqueAux sent_ids fetch (fetch 2) 3 3 :=
    retryUniqueAux_succ_mem _ _ _ _ 3 (h 1 (by omega))
  have e3 : retryUniqueAux sent_ids fetch (fetch 2) 3 3 =
      retryUniqueAux sent_ids fetch (fetch 3) 4 2 :=
    retryUniqueAux_succ_mem _ _ _ _ 2 (h 2 (by omega))
  have e4 : retryUniqueAux sent_ids fetch (fetch 3) 4 2 =
      retryUniqueAux sent_ids fetch (fetch 4) 5 1 :=
    retryUniqueAux_succ_mem _ _ _ _ 1 (h 3 (by omega))
  have e5 : retryUniqueAux sent_ids fetch (fetch 4) 5 1 =
      retryUniqueAux sent_ids fetch (fetch 5) 6 0 :=
    retryUniqueAux_succ_mem _ _ _ _ 0 (h 4 (by omega))
  have h5 : retrieve_unique sent_ids fetch 5 = fetch 5 := by
    rw [e0, e1, e2, e3, e4, e5]
    rfl
  exact ⟨h5, by simp [facts_cycle, h5]⟩

/-- Witness for C2 at history `["A","B","C","D","E"]` and a fetch sequence
returning only the in-history identifier `A`. -/
theorem retrieve_unique_exhaustion_dispatches_witness :
    retrieve_unique ["A", "B", "C", "D", "E"] (fun _ => ((), "A")) 5 =
      ((), "A") ∧
    facts_cycle ["A", "B", "C", "D", "E"] (fun _ => ((), "A")) =
      ([((), "A")], ["A", "B", "C", "D", "E"] ++ ["A"]) :=
  retrieve_unique_exhaustion_dispatches ["A", "B", "C", "D", "E"]
    (fun _ => ((), "A"))
    (fun _ _ => List.mem_cons_self "A" ["B", "C", "D", "E"])

/-- C3: For every current time of day, the computed next trigger is the
earliest of the fixed daily times of the category strictly after it, and when
none remains it is the first fixed time of the next day; concretely for the
facts set 08:00, 12:00, 16:00, 20:00 IST, at 08:30 (30600 s) the next trigger is
12:00 (43200 s) the same day, and at 20:30 (73800 s) it is 08:00 the next
day (28800 s + one day). -/
theorem next_trigger_is_earliest_after :
    (∀ now : Nat,
      ((∃ t ∈ facts_target_times, now < t) →
        next_trigger facts_target_times now ∈ facts_target_times ∧
        now < next_trigger facts_target_times now ∧
        ∀ u ∈ facts_target_times, now < u →
          next_trigger facts_target_times now ≤ u) ∧
      ((∀ t ∈ facts_target_times, t ≤ now) →
        next_trigger facts_target_times now =
          facts_target_times.headD 0 + SECONDS_PER_DAY)) ∧
    (∀ now : Nat,
      ((∃ t ∈ trivia_target_times, now < t) →
        next_trigger trivia_target_times now ∈ trivia_target_times ∧
        now < next_trigger trivia_target_times now ∧
        ∀ u ∈ trivia_target_times, now < u →
          next_trigger trivia_target_times now ≤ u) ∧
      ((∀ t ∈ trivia_target_times, t ≤ now) →
        next_trigger trivia_target_times now =
          trivia_target_times.headD 0 + SECONDS_PER_DAY)) ∧
    next_trigger facts_target_times 30600 = 43200 ∧
    next_trigger facts_target_times 73800 = 28800 + SECONDS_PER_DAY :=
  ⟨fun now => ⟨next_trigger_spec facts_target_times now,
     next_trigger_none facts_target_times now⟩,
   fun now => ⟨next_trigger_spec trivia_target_times now,
     next_trigger_none trivia_target_times now⟩,
   rfl, rfl⟩

/-- Witness for C3 at 08:30 (facts) and at 22:13:20 = 80000 s (trivia, past
the last trigger of the day). -/
theorem next_trigger_is_earliest_after_witness :
    next_trigger facts_target_times 30600 ∈ facts_target_times ∧
    30600 < next_trigger facts_target_times 30600 ∧
    (∀ u ∈ facts_target_times, 30600 < u →
      next_trigger facts_target_times 30600 ≤ u) ∧
    next_trigger trivia_target_times 80000 =
      trivia_target_times.headD 0 + SECONDS_PER_DAY := by
  have h := (next_trigger_is_earliest_after.1 30600).1 ⟨43200, by decide, by decide⟩
  have h2 := (next_trigger_is_earliest_after.2.1 80000).2 (by decide)
  exact ⟨h.1, h.2.1, h.2.2, h2⟩

/-- Trace properties of the facts.py loops (whose except arm only logs):
body outcomes have no effect on the trigger times, the loop performs
exactly `n` firings in `n` iterations, and the wake times form a strictly
increasing chain of correctly recomputed next triggers. -/
theorem scheduled_loop_facts_trace (target_times : List Nat)
    (outcomes outcomes2 : Nat → Bool) (n k k2 now : Nat) :
    (scheduled_loop target_times outcomes n k now).map Prod.fst =
      (scheduled_loop target_times outcomes2 n k2 now).map Prod.fst ∧
    (scheduled_loop target_times outcomes n k now).length = n ∧
    List.Chain (fun a b => a < b ∧ b = next_trigger_abs target_times a) now
      ((scheduled_loop target_times outcomes n k now).map Prod.fst) := by
  induction n generalizing k k2 now with
  | zero => simp [scheduled_loop]
  | succ m ih =>
    obtain ⟨ih1, ih2, ih3⟩ := ih (k + 1) (k2 + 1) (next_trigger_abs target_times now)
    refine ⟨?_, ?_, ?_⟩
    · simp only [scheduled_loop, List.map_cons]
      rw [ih1]
    · simp only [scheduled_loop, List.length_cons, ih2]
    · simp only [scheduled_loop, List.map_cons]
      exact List.Chain.cons ⟨next_trigger_abs_gt target_times now, rfl⟩ ih3

/-- C9 counterexample: the quiz batch scheduler does NOT survive every
failed cycle: in a run of two requested iterations in which the body of
cycle 0 raises (a dispatch-phase exception, caught) and the error-report
send inside the except arm then raises as well, the loop terminates — only
one firing happens and the second iteration never computes a trigger. -/
theorem quiz_loop_exits_counterexample :
    (scheduled_loop_quiz trivia_target_times (fun _ => false) (fun _ => false)
      2 0 0).2 = false ∧
    (scheduled_loop_quiz trivia_target_times (fun _ => false) (fun _ => false)
      2 0 0).1.length = 1 := by
  decide

/-- C9 (amended): the facts.py scheduler loops — whose except arm only logs
— survive every failed cycle with outcome-independent, strictly increasing,
correctly recomputed trigger times; the quiz.py batch scheduler behaves
identically provided the error-report send inside its except arm succeeds
after every failed cycle, but a cycle whose body raises and whose error
report also raises terminates that loop after its firing. -/
theorem scheduler_exception_containment_amended (target_times : List Nat)
    (outcomes outcomes2 log_send_ok : Nat → Bool) (n k k2 now : Nat) :
    ((scheduled_loop target_times outcomes n k now).map Prod.fst =
        (scheduled_loop target_times outcomes2 n k2 now).map Prod.fst ∧
      (scheduled_loop target_times outcomes n k now).length = n ∧
      List.Chain (fun a b => a < b ∧ b = next_trigger_abs target_times a) now
        ((scheduled_loop target_times outcomes n k now).map Prod.fst)) ∧
    ((∀ j, outcomes j = false → log_send_ok j = true) →
      (scheduled_loop_quiz target_times outcomes log_send_ok n k now).1 =
        scheduled_loop target_times outcomes n k now ∧
      (scheduled_loop_quiz target_times outcomes log_send_ok n k now).2 =
        true) ∧
    (outcomes k = false → log_send_ok k = false →
      scheduled_loop_quiz target_times outcomes log_send_ok (n + 1) k now =
        ([(next_trigger_abs target_times now, false)], false)) := by
  refine ⟨scheduled_loop_facts_trace target_times outcomes outcomes2 n k k2 now,
    ?_, ?_⟩
  · intro hlog
    induction n generalizing k now with
    | zero => exact ⟨rfl, rfl⟩
    | succ m ih =>
      obtain ⟨ih1, ih2⟩ := ih (k + 1) (next_trigger_abs target_times now)
      cases houtcome : outcomes k with
      | true => simp [scheduled_loop_quiz, scheduled_loop, houtcome, ih1, ih2]
      | false =>
        simp [scheduled_loop_quiz, scheduled_loop, houtcome, hlog k houtcome,
          ih1, ih2]
  · intro h1 h2
    simp [scheduled_loop_quiz, h1, h2]

/-- Witness for the amended C9: with every cycle body failing but every
error report succeeding, two iterations of the quiz loop fire exactly like
the facts loop and the loop stays alive; with the report failing too, one
iteration fires and the loop is terminated. -/
theorem scheduler_exception_containment_amended_witness :
    ((scheduled_loop_quiz trivia_target_times (fun _ => false)
        (fun _ => true) 2 0 0).1 =
      scheduled_loop trivia_target_times (fun _ => false) 2 0 0 ∧
     (scheduled_loop_quiz trivia_target_times (fun _ => false)
        (fun _ => true) 2 0 0).2 = true) ∧
    scheduled_loop_quiz trivia_target_times (fun _ => false) (fun _ => false)
        2 0 0 =
      ([(next_trigger_abs trivia_target_times 0, false)], false) :=
  ⟨(scheduler_exception_containment_amended trivia_target_times
      (fun _ => false) (fun _ => false) (fun _ => true) 2 0 0 0).2.1
      (fun _ _ => rfl),
   (scheduler_exception_containment_amended trivia_target_times
      (fun _ => false) (fun _ => false) (fun _ => false) 1 0 0 0).2.2 rfl rfl⟩

/-- C4 counterexample: the batch derivation (quiz.py line 109) hashes the raw
decoded question text with `generate_question_id`, without whitespace
normalization: the texts `"a b"` and `"a  b"` are identical after
whitespace-collapse and trim, yet their derived identifiers differ. -/
theorem question_id_not_normalized_counterexample :
    clean_question "a b" = clean_question "a  b" ∧
    generate_question_id "a b" ≠ generate_question_id "a  b" :=
  ⟨by decide, by decide⟩

/-- C4 (amended): identifier derivation is a congruence under whitespace
normalization in the single-trivia fetcher (facts.py lines 274–281, which
hashes the normalized text), while the batch fetcher (quiz.py lines 88–110)
hashes the raw text, so only literally equal texts are guaranteed equal
identifiers there. -/
theorem question_id_normalization_congruence_amended (a b : String) :
    (clean_question a = clean_question b →
      ∀ ts ts2 : String,
        fetch_trivia_question_id (.ok a) ts =
          fetch_trivia_question_id (.ok b) ts2) ∧
    (a = b → generate_question_id a = generate_question_id b) := by
  constructor
  · intro h ts ts2
    simp only [fetch_trivia_question_id]
    exact congrArg generate_question_id h
  · intro h
    exact congrArg generate_question_id h

/-- Witness for the amended C4: `"a \n b"` and `"a  b"` normalize to the
same text, so the single-trivia derivation gives them the same identifier. -/
theorem question_id_normalization_congruence_amended_witness :
    fetch_trivia_question_id (.ok "a \n b") "0" =
      fetch_trivia_question_id (.ok "a  b") "1" ∧
    generate_question_id "x" = generate_question_id "x" :=
  ⟨(question_id_normalization_congruence_amended "a \n b" "a  b").1
      (by decide) "0" "1",
   (question_id_normalization_congruence_amended "x" "x").2 rfl⟩

/-- C5 counterexample: a successful facts fetch whose response lacks a
natural id yields the current-time string itself — a timestamp — as the
identifier (facts.py line 68), not a hash of the normalized fact text: the
claimed hash-based-never-timestamp derivation fails here. -/
theorem fact_id_timestamp_counterexample :
    (fetch_daily_fact (.ok ⟨"Honey never spoils.", none⟩) "1700000000.0").2 =
      "1700000000.0" ∧
    (fetch_daily_fact (.ok ⟨"Honey never spoils.", none⟩) "1700000000.0").2 ≠
      generate_question_id (clean_question "Honey never spoils.") :=
  ⟨rfl, by decide⟩

/-- C5 (amended): the facts fetcher prefers the source-provided natural id
and otherwise uses the current-time string (a timestamp, no hashing); the
single-trivia fetcher always hashes the normalized question text (SHA-256,
hex) on success; both use a `"fallback_"`-marked timestamp id only on total
fetch failure. -/
theorem fact_id_derivation_amended :
    (∀ (text i ts : String),
      (fetch_daily_fact (.ok ⟨text, some i⟩) ts).2 = i) ∧
    (∀ (text ts : String), (fetch_daily_fact (.ok ⟨text, none⟩) ts).2 = ts) ∧
    (∀ ts : String, (fetch_daily_fact (.error ()) ts).2 = "fallback_" ++ ts) ∧
    (∀ (q ts : String),
      fetch_trivia_question_id (.ok q) ts =
        generate_question_id (clean_question q)) ∧
    (∀ ts : String, fetch_trivia_question_id (.error ()) ts =
      "fallback_" ++ ts) :=
  ⟨fun _ _ _ => rfl, fun _ _ => rfl, fun _ => rfl, fun _ _ => rfl, fun _ => rfl⟩

set_option maxRecDepth 8192 in
/-- C7: Save/load round-trip with bounded retention: saving any id list and
loading it back returns exactly the Python negative slice of the last `MAX`
entries, a suffix of the original list (original relative order), whose
length is `min MAX (length ids)` and in particular never exceeds the bound
(200 for facts, 300 for trivia). -/
theorem save_load_roundtrip_bounded (ids : List String) :
    (load_sent_facts (save_sent_facts ids) = pyLastN MAX_STORED_FACTS ids ∧
      load_sent_facts (save_sent_facts ids) <:+ ids ∧
      (load_sent_facts (save_sent_facts ids)).length =
        min MAX_STORED_FACTS ids.length ∧
      (load_sent_facts (save_sent_facts ids)).length ≤ MAX_STORED_FACTS) ∧
    (load_sent_trivia (save_sent_trivia ids) = pyLastN MAX_STORED_QUESTIONS ids ∧
      load_sent_trivia (save_sent_trivia ids) <:+ ids ∧
      (load_sent_trivia (save_sent_trivia ids)).length =
        min MAX_STORED_QUESTIONS ids.length ∧
      (load_sent_trivia (save_sent_trivia ids)).length ≤
        MAX_STORED_QUESTIONS) := by
  refine ⟨⟨rfl, List.drop_suffix _ _, ?_, ?_⟩,
          ⟨rfl, List.drop_suffix _ _, ?_, ?_⟩⟩ <;>
    simp [load_sent_facts, save_sent_facts, load_sent_trivia, save_sent_trivia,
      pyLastN, MAX_STORED_FACTS, MAX_STORED_QUESTIONS, List.length_drop] <;>
    omega

/-- Freshness invariant of the batch processing loop: every recorded id and
the id of every dispatched item is outside the loaded history, for any
starting counters. -/
theorem processQuestionsAux_fresh (sent_ids : List String)
    (refetch : Nat → Except Unit BatchQuestion) (send_ok : Nat → Bool) :
    ∀ (qs : List BatchQuestion) (fridx sidx : Nat),
      (∀ x ∈ (processQuestionsAux sent_ids refetch send_ok qs fridx sidx).1,
        x ∉ sent_ids) ∧
      (∀ p ∈ (processQuestionsAux sent_ids refetch send_ok qs fridx sidx).2,
        p.qid ∉ sent_ids) := by
  intro qs
  induction qs with
  | nil =>
    intro fridx sidx
    simp [processQuestionsAux]
  | cons q rest ih =>
    intro fridx sidx
    obtain ⟨ih1, ih2⟩ := ih (processRetry sent_ids refetch q fridx 3).2 (sidx + 1)
    obtain ⟨ih1s, ih2s⟩ := ih (processRetry sent_ids refetch q fridx 3).2 sidx
    by_cases h1 : (processRetry sent_ids refetch q fridx 3).1.qid ∈ sent_ids
    · constructor
      · intro x hx
        apply ih1s
        simpa [processQuestionsAux, h1] using hx
      · intro p hp
        apply ih2s
        simpa [processQuestionsAux, h1] using hp
    · by_cases h2 : send_ok sidx
      · constructor
        · intro x hx
          have hx2 : x = (processRetry sent_ids refetch q fridx 3).1.qid ∨
              x ∈ (processQuestionsAux sent_ids refetch send_ok rest
                (processRetry sent_ids refetch q fridx 3).2 (sidx + 1)).1 := by
            simpa [processQuestionsAux, h1, h2] using hx
          rcases hx2 with rfl | hx2
          · exact h1
          · exact ih1 x hx2
        · intro p hp
          have hp2 : p = (processRetry sent_ids refetch q fridx 3).1 ∨
              p ∈ (processQuestionsAux sent_ids refetch send_ok rest
                (processRetry sent_ids refetch q fridx 3).2 (sidx + 1)).2 := by
            simpa [processQuestionsAux, h1, h2] using hp
          rcases hp2 with rfl | hp2
          · exact h1
          · exact ih2 p hp2
      · constructor
        · intro x hx
          apply ih1
          simpa [processQuestionsAux, h1, h2] using hx
        · intro p hp
          apply ih2
          simpa [processQuestionsAux, h1, h2] using hp

/-- C8 counterexample: `process_questions` keeps no in-call reserved set —
with an empty loaded history and a batch of four raw fetches in which two
return identical question text (hence, by `generate_question_id`, identical
identifiers), the resolved identifiers recorded in `new_ids` are NOT pairwise
distinct: both copies are dispatched and recorded. -/
theorem batch_reserved_set_counterexample :
    ¬ List.Pairwise (fun a b => a ≠ b)
        (process_questions []
          (fun _ => .error ())
          (fun _ => true)
          [⟨"Q one", generate_question_id "Q one"⟩,
           ⟨"Q dup", generate_question_id "Q dup"⟩,
           ⟨"Q dup", generate_question_id "Q dup"⟩,
           ⟨"Q four", generate_question_id "Q four"⟩]).1 := by
  decide

/-- C8 (amended): within one batch, each item is deduplicated only against
the loaded history; there is no in-call reserved set, so two items sharing an
identifier that is absent from the history are both dispatched and both
occurrences of the identifier are recorded. -/
theorem batch_no_reserved_set_amended (sent_ids : List String)
    (refetch : Nat → Except Unit BatchQuestion) (q : BatchQuestion)
    (hq : q.qid ∉ sent_ids) :
    process_questions sent_ids refetch (fun _ => true) [q, q] =
      ([q.qid, q.qid], [q, q]) := by
  simp [process_questions, processQuestionsAux,
    processRetry_not_mem sent_ids refetch q, hq]

/-- Witness for the amended C8: identifier `"B"` is not in history `["A"]`;
a two-copy batch dispatches and records it twice. -/
theorem batch_no_reserved_set_amended_witness :
    process_questions ["A"] (fun _ => .error ()) (fun _ => true)
        [⟨"t", "B"⟩, ⟨"t", "B"⟩] =
      (["B", "B"], [⟨"t", "B"⟩, ⟨"t", "B"⟩]) :=
  batch_no_reserved_set_amended ["A"] (fun _ => .error ()) ⟨"t", "B"⟩
    (by decide)

/-- C10: the trivia-batch variant dispatches an item and records its
identifier only when that identifier is absent from the loaded history after
its retry loop: every recorded id and the id of every dispatched item is
outside the loaded history, and an item whose resolved id still collides
with the history is skipped silently — the cycle output is exactly that of
the remaining items. -/
theorem process_questions_only_fresh (sent_ids : List String)
    (refetch : Nat → Except Unit BatchQuestion) (send_ok : Nat → Bool)
    (questions : List BatchQuestion) :
    (∀ x ∈ (process_questions sent_ids refetch send_ok questions).1,
      x ∉ sent_ids) ∧
    (∀ p ∈ (process_questions sent_ids refetch send_ok questions).2,
      p.qid ∉ sent_ids) ∧
    (∀ (q : BatchQuestion) (rest : List BatchQuestion) (fridx sidx : Nat),
      (processRetry sent_ids refetch q fridx 3).1.qid ∈ sent_ids →
      processQuestionsAux sent_ids refetch send_ok (q :: rest) fridx sidx =
        processQuestionsAux sent_ids refetch send_ok rest
          (processRetry sent_ids refetch q fridx 3).2 sidx) := by
  obtain ⟨h1, h2⟩ := processQuestionsAux_fresh sent_ids refetch send_ok questions 0 0
  refine ⟨h1, h2, ?_⟩
  intro q rest fridx sidx h
  simp [processQuestionsAux, h]

/-- Witness for C10: with history `["A"]`, a fresh item (`"B"`) is recorded
and is indeed outside the history, and an item resolving to the in-history
id `"A"` is skipped (the failing replacement fetch models the
`fetch_trivia_questions(1)` call, which raises `TypeError`). -/
theorem process_questions_only_fresh_witness :
    (process_questions ["A"] (fun _ => .error ()) (fun _ => true)
        [⟨"t", "B"⟩]).1 = ["B"] ∧
    "B" ∉ ["A"] ∧
    processQuestionsAux ["A"] (fun _ => .error ()) (fun _ => true)
        [⟨"t", "A"⟩] 0 0 =
      processQuestionsAux ["A"] (fun _ => .error ()) (fun _ => true) []
        (processRetry ["A"] (fun _ => .error ()) ⟨"t", "A"⟩ 0 3).2 0 :=
  ⟨by decide,
   (process_questions_only_fresh ["A"] (fun _ => .error ()) (fun _ => true)
      [⟨"t", "B"⟩]).1 "B" (by decide),
   (process_questions_only_fresh ["A"] (fun _ => .error ()) (fun _ => true)
      [⟨"t", "B"⟩]).2.2 ⟨"t", "A"⟩ [] 0 0 (by decide)⟩

end FileShareBot
